import Mathlib

/-!
Verification of the process lifecycle tracking subsystem of the Ludo
game launcher: launch-command construction (`DefaultRunner._create_command`,
`PlayButton._create_command`), the managed runner (`DefaultRunner`), the
URL runner (`WebLinkRunner`), the runner base class (`GameRunner`) and the
process registry (`ProcessManager`).

The Python code is embedded shallowly: pure helpers become Lean functions,
the Qt process and its signals become explicit state plus event lists, and
Python exceptions become a `PyResult` sum.  Machine-facing effects
(process creation, starting, terminating, killing, opening a browser) are
recorded as explicit action traces so that theorems can speak about what
OS interaction a call performs.
-/

/-- Result of a Python call: a returned value or a raised exception
(carrying the exception message), as in the source's try/except blocks. -/
inductive PyResult (α : Type) where
  | ok (a : α)
  | exn (msg : String)
deriving DecidableEq, Repr

/-- The double-quote character. -/
def dqCh : Char := Char.ofNat 34

/-- The single-quote character. -/
def sqCh : Char := Char.ofNat 39

/-- The backslash character. -/
def bsCh : Char := Char.ofNat 92

/-- Whitespace recognised by Python's `str.split()` / `str.strip()`
(ASCII part: space, tab, newline, carriage return, vertical tab, form feed). -/
def pyWs (c : Char) : Bool :=
  c = ' ' || c = Char.ofNat 9 || c = Char.ofNat 10 || c = Char.ofNat 13 ||
  c = Char.ofNat 11 || c = Char.ofNat 12

/-- Whitespace recognised by Python's `shlex` lexer
(its `whitespace` attribute is exactly space, tab, carriage return, newline). -/
def isShlexWs (c : Char) : Bool :=
  c = ' ' || c = Char.ofNat 9 || c = Char.ofNat 13 || c = Char.ofNat 10

/-- Python `str.strip()` (for the ASCII whitespace the launcher deals in):
drop leading and trailing whitespace. -/
def pyStrip (s : String) : String :=
  String.mk (((s.data.dropWhile pyWs).reverse.dropWhile pyWs).reverse)

/-- Python `str.lower()` (ASCII range, which is all the scheme check needs). -/
def pyLower (s : String) : String :=
  String.mk (s.data.map Char.toLower)

/-- Python `str.startswith(pre)`. -/
def pyStartswith (s pre : String) : Bool :=
  pre.data.isPrefixOf s.data

/-- Helper for Python `str.split()` with no separator: split on runs of
whitespace, producing no empty tokens.  First argument is the remaining
input, second the current token accumulated in reverse. -/
def pySplitChars : List Char → List Char → List String
  | [], [] => []
  | [], tok => [String.mk tok.reverse]
  | c :: rest, tok =>
      if pyWs c then
        if tok.isEmpty then pySplitChars rest []
        else String.mk tok.reverse :: pySplitChars rest []
      else pySplitChars rest (c :: tok)

/-- Python `str.split()` with no separator (used by `PlayButton._create_command`). -/
def pySplit (s : String) : List String :=
  pySplitChars s.data []

/-- Python `posixpath.dirname`: everything up to the last slash, with
trailing slashes stripped unless the head is all slashes. -/
def posixDirname (p : String) : String :=
  let head := (p.data.reverse.dropWhile (fun c => c ≠ '/')).reverse
  if head.isEmpty || head.all (fun c => c = '/') then String.mk head
  else String.mk ((head.reverse.dropWhile (fun c => c = '/')).reverse)

/-- Lexer modes of Python's `shlex` in POSIX mode with `whitespace_split`:
between tokens, inside a word, inside single quotes, inside double quotes,
after an escape character outside quotes, after an escape character inside
double quotes. -/
inductive LexMode where
  | between
  | word
  | squote
  | dquote
  | escOut
  | escIn
deriving DecidableEq

/-- One pass of Python's `shlex` token loop (`posix=True`,
`whitespace_split=True`, no comment characters), collecting the finished
tokens.  Arguments: remaining input, mode, current token (reversed),
whether the current token saw a quote (so an empty quoted token is still
emitted), accumulated tokens (reversed).  Unterminated quotes raise
`ValueError("No closing quotation")` and a trailing escape raises
`ValueError("No escaped character")`, as in `shlex.read_token`. -/
def shlexRun : List Char → LexMode → List Char → Bool → List String →
    PyResult (List String)
  | [], .between, _, _, acc => .ok acc.reverse
  | [], .word, tok, quoted, acc =>
      if tok.isEmpty && !quoted then .ok acc.reverse
      else .ok (String.mk tok.reverse :: acc).reverse
  | [], .squote, _, _, _ => .exn "No closing quotation"
  | [], .dquote, _, _, _ => .exn "No closing quotation"
  | [], .escOut, _, _, _ => .exn "No escaped character"
  | [], .escIn, _, _, _ => .exn "No escaped character"
  | c :: rest, .between, tok, quoted, acc =>
      if isShlexWs c then shlexRun rest .between tok quoted acc
      else if c = bsCh then shlexRun rest .escOut tok quoted acc
      else if c = sqCh then shlexRun rest .squote tok true acc
      else if c = dqCh then shlexRun rest .dquote tok true acc
      else shlexRun rest .word (c :: tok) quoted acc
  | c :: rest, .word, tok, quoted, acc =>
      if isShlexWs c then
        if tok.isEmpty && !quoted then shlexRun rest .between [] false acc
        else shlexRun rest .between [] false (String.mk tok.reverse :: acc)
      else if c = bsCh then shlexRun rest .escOut tok quoted acc
      else if c = sqCh then shlexRun rest .squote tok true acc
      else if c = dqCh then shlexRun rest .dquote tok true acc
      else shlexRun rest .word (c :: tok) quoted acc
  | c :: rest, .squote, tok, quoted, acc =>
      if c = sqCh then shlexRun rest .word tok quoted acc
      else shlexRun rest .squote (c :: tok) quoted acc
  | c :: rest, .dquote, tok, quoted, acc =>
      if c = dqCh then shlexRun rest .word tok quoted acc
      else if c = bsCh then shlexRun rest .escIn tok quoted acc
      else shlexRun rest .dquote (c :: tok) quoted acc
  | c :: rest, .escOut, tok, quoted, acc =>
      shlexRun rest .word (c :: tok) quoted acc
  | c :: rest, .escIn, tok, quoted, acc =>
      if c = dqCh || c = bsCh then shlexRun rest .dquote (c :: tok) quoted acc
      else shlexRun rest .dquote (c :: bsCh :: tok) quoted acc

/-- Python `shlex.split(s)` (POSIX rules, comments disabled), the tokenizer
used by `DefaultRunner._create_command`. -/
def shlexSplit (s : String) : PyResult (List String) :=
  shlexRun s.data .between [] false []

example : shlexSplit "-a -b" = .ok ["-a", "-b"] := by decide
example : pySplit "  -a  -b " = ["-a", "-b"] := by decide
example : posixDirname "/bin/game" = "/bin" := by decide
example : posixDirname "game.exe" = "" := by decide
example : shlexSplit (String.mk [dqCh, 'a', ' ', 'b', dqCh]) = .ok ["a b"] := by decide
example : pyStrip "  x " = "x" := by decide

/-- Launch-relevant fields of the `Game` dataclass (`core/models/game.py`).
The source dataclass carries further display metadata (title, rating,
artwork paths, play statistics) that the runner and registry never read;
only the identity and launch configuration fields are embedded. -/
structure Game where
  id : String
  executablePath : String
  workingDirectory : String
  launchOptions : String
deriving DecidableEq, Repr

/-- Signals a `GameRunner` can emit (`core/api/runner.py`):
`game_started`, `game_stopped(exit_code)`, `error_occurred(message)`. -/
inductive Emission where
  | started
  | stopped (exitCode : Int)
  | error (msg : String)
deriving DecidableEq, Repr

/-- State of a `QProcess` handle as observed through `state()`:
the managed runner only ever compares against `QProcess.Running`. -/
inductive ProcState where
  | notRunning
  | starting
  | running
deriving DecidableEq, Repr

/-- Mutable state of a `DefaultRunner` instance: `self._process`
(`none` when the handle is unset) and whether `self._start_time` was set. -/
structure RunnerSt where
  process : Option ProcState
  startTimeSet : Bool
deriving DecidableEq, Repr

/-- OS-facing effects `DefaultRunner.run_game` can perform, in order. -/
inductive RunAction where
  | createProcess
  | setWorkingDir (dir : String)
  | startProc (target : String) (args : List String)
  | startDetached (target : String) (args : List String) (dir : String)
deriving DecidableEq, Repr

/-- Effects `DefaultRunner.stop_game` performs on the live process. -/
inductive StopAction where
  | terminate
  | waitForFinished (timeoutMs : Nat)
  | kill
deriving DecidableEq, Repr

/-- Environment a launch runs against: which paths `os.path.isfile`
reports as regular files, and whether the spawned process confirms its
start within `waitForStarted`'s wait (respectively whether
`startDetached` succeeds, in detached mode). -/
structure Env where
  isfile : String → Bool
  startSucceeds : Bool

/-- `QProcess.ProcessError` codes handled by `_on_process_error`. -/
inductive QProcessError where
  | failedToStart
  | crashed
  | timedout
  | writeError
  | readError
  | unknown
deriving DecidableEq, Repr

/-- Qt events a live `QProcess` delivers to the connected slots:
`finished(exit_code, exit_status)` and `errorOccurred(error)`.  On a crash
Qt delivers both `errorOccurred(QProcess.Crashed)` and `finished` for the
same process, in that order. -/
inductive QtEvent where
  | finished (exitCode : Int)
  | errorOccurred (e : QProcessError)
deriving DecidableEq, Repr

namespace DefaultRunner

/-- Module constant `DETACHED_MODE` of `default_runner.py`. -/
def DETACHED_MODE : Bool := false

/-- Module constant `KILL_TIMEOUT` of `default_runner.py` (milliseconds). -/
def KILL_TIMEOUT : Nat := 5000

/-- State of a freshly constructed `DefaultRunner`
(`self._process = None`, `self._start_time = None`). -/
def initSt : RunnerSt := ⟨none, false⟩

/-- `DefaultRunner._create_command`: with a target, the command is the
target followed by the shlex-split launch options; with no target the
launch options alone are shlex-split; with neither, the empty command. -/
def create_command (targetPath launchOptions : String) : PyResult (List String) :=
  if targetPath ≠ "" then
    if launchOptions ≠ "" then
      match shlexSplit launchOptions with
      | .ok ts => .ok (targetPath :: ts)
      | .exn m => .exn m
    else .ok [targetPath]
  else if launchOptions ≠ "" then
    shlexSplit launchOptions
  else .ok []

/-- `DefaultRunner.is_running`: false in detached mode, otherwise whether
the handle is set and its state is `QProcess.Running`. -/
def is_running (st : RunnerSt) : Bool :=
  if DETACHED_MODE then false
  else decide (st.process = some ProcState.running)

/-- `DefaultRunner.can_stop`. -/
def can_stop : Bool := !DETACHED_MODE

/-- `DefaultRunner.stop_game`: if the handle is set and running, send
`terminate()`, block in `waitForFinished(KILL_TIMEOUT)`, and if that wait
times out send `kill()`; return whether a stop was attempted.  The
parameter `exitsWithinTimeout` is the outcome of the bounded wait. -/
def stop_game (st : RunnerSt) (exitsWithinTimeout : Bool) :
    List StopAction × Bool :=
  if st.process = some ProcState.running then
    if exitsWithinTimeout then
      ([StopAction.terminate, StopAction.waitForFinished KILL_TIMEOUT], true)
    else
      ([StopAction.terminate, StopAction.waitForFinished KILL_TIMEOUT,
        StopAction.kill], true)
  else ([], false)

/-- Fixed messages of `_on_process_error`'s `error_map` (with
`"Unknown error."` as the `get` default). -/
def errorMessage : QProcessError → String
  | .failedToStart => "Failed to start."
  | .crashed => "Crashed."
  | .timedout => "Timed out."
  | .writeError => "Write error."
  | .readError => "Read error."
  | .unknown => "Unknown error."

/-- `DefaultRunner._on_process_finished`: clears `self._process` and emits
`game_stopped(exit_code)`. -/
def on_process_finished (st : RunnerSt) (exitCode : Int) :
    RunnerSt × List Emission :=
  ({ st with process := none }, [Emission.stopped exitCode])

/-- `DefaultRunner._on_process_error`: emits `error_occurred` with the
mapped message; the runner state is untouched. -/
def on_process_error (st : RunnerSt) (e : QProcessError) :
    RunnerSt × List Emission :=
  (st, [Emission.error (errorMessage e)])

/-- Outcome of one `run_game` call: the runner state afterwards, the
signals emitted during the call, and the OS actions performed. -/
structure RunOutcome where
  state : RunnerSt
  emissions : List Emission
  actions : List RunAction
deriving DecidableEq, Repr

/-- `DefaultRunner.run_game`: build the command, resolve the working
directory, then create and start the process; any failure is caught and
surfaced as one `error_occurred` emission.  On a spawn that fails to
confirm within `waitForStarted`, Qt delivers `errorOccurred(FailedToStart)`
to the already-connected `_on_process_error` slot during the wait, so the
slot's emission precedes the `except` block's own. -/
def run_game (env : Env) (g : Game) (st : RunnerSt) : RunOutcome :=
  match create_command g.executablePath g.launchOptions with
  | .exn m => ⟨st, [Emission.error m], []⟩
  | .ok [] =>
      ⟨st, [Emission.error "No valid command provided to run the game."], []⟩
  | .ok (target :: args) =>
      let workingDir :=
        if g.workingDirectory ≠ "" then g.workingDirectory
        else if env.isfile target then posixDirname target else ""
      if workingDir = "" then
        ⟨st, [Emission.error "No working directory could be determined."], []⟩
      else
        let pre := [RunAction.createProcess, RunAction.setWorkingDir workingDir]
        if DETACHED_MODE then
          if env.startSucceeds then
            ⟨⟨some ProcState.notRunning, st.startTimeSet⟩, [Emission.started],
              pre ++ [RunAction.startDetached target args workingDir]⟩
          else
            ⟨⟨some ProcState.notRunning, st.startTimeSet⟩,
              [Emission.error "Failed to start detached process."],
              pre ++ [RunAction.startDetached target args workingDir]⟩
        else
          if env.startSucceeds then
            ⟨⟨some ProcState.running, true⟩, [Emission.started],
              pre ++ [RunAction.startProc target args]⟩
          else
            ⟨⟨some ProcState.notRunning, st.startTimeSet⟩,
              [Emission.error "Failed to start.",
               Emission.error "Failed to start the process."],
              pre ++ [RunAction.startProc target args]⟩

/-- Deliver one Qt event to the slots `run_game` connected. -/
def deliverEvent (st : RunnerSt) (ev : QtEvent) : RunnerSt × List Emission :=
  match ev with
  | .finished code => on_process_finished st code
  | .errorOccurred e => on_process_error st e

/-- Deliver a sequence of Qt events, collecting the emitted signals. -/
def deliverAll (st : RunnerSt) : List QtEvent → RunnerSt × List Emission
  | [] => (st, [])
  | ev :: evs =>
      let r1 := deliverEvent st ev
      let r2 := deliverAll r1.1 evs
      (r2.1, r1.2 ++ r2.2)

/-- All signals one `DefaultRunner` emits over a whole invocation:
those of the `run_game` call itself followed by those produced as the
process's Qt lifecycle events arrive. -/
def lifetime (env : Env) (g : Game) (events : List QtEvent) : List Emission :=
  let out := run_game env g initSt
  out.emissions ++ (deliverAll out.state events).2

end DefaultRunner

def envTrue : Env := ⟨fun _ => true, true⟩

def gPlain : Game := ⟨"g1", "/bin/game", "/w", ""⟩

example :
    DefaultRunner.run_game envTrue gPlain DefaultRunner.initSt =
      ⟨⟨some ProcState.running, true⟩, [Emission.started],
        [RunAction.createProcess, RunAction.setWorkingDir "/w",
         RunAction.startProc "/bin/game" []]⟩ := by decide

example :
    DefaultRunner.lifetime envTrue gPlain
      [QtEvent.errorOccurred QProcessError.crashed, QtEvent.finished 9] =
      [Emission.started, Emission.error "Crashed.", Emission.stopped 9] := by
  decide

example :
    DefaultRunner.stop_game ⟨some ProcState.running, true⟩ false =
      ([StopAction.terminate, StopAction.waitForFinished 5000,
        StopAction.kill], true) := by decide

namespace GameRunner

/-- `GameRunner.can_stop` (base-class default in `core/api/runner.py`). -/
def can_stop : Bool := false

/-- `GameRunner.stop_game` (base class): `raise NotImplementedError`. -/
def stop_game : PyResult Bool := .exn "NotImplementedError"

end GameRunner

/-- An effect of the URL runner: handing the URL to the platform's
default handler via `webbrowser.open`. -/
inductive BrowserAction where
  | openUrl (url : String)
deriving DecidableEq, Repr

namespace WebLinkRunner

/-- `WebLinkRunner._validate_url`: strip and lower-case the stored
executable path and accept exactly the `http://` and `https://` schemes. -/
def validate_url (executablePath : String) : Bool :=
  let target := pyLower (pyStrip executablePath)
  pyStartswith target "http://" || pyStartswith target "https://"

/-- `WebLinkRunner.run_game`: on an invalid URL, emit one error and touch
nothing; otherwise call `webbrowser.open` on the stripped target and emit
`game_started`, or emit the exception's message if the call raises
(`openResult` is `none` on success, `some msg` for a raised exception). -/
def run_game (executablePath : String) (openResult : Option String) :
    List Emission × List BrowserAction :=
  let target := pyStrip executablePath
  if !validate_url executablePath then
    ([Emission.error ("Invalid URL: " ++ target)], [])
  else
    match openResult with
    | none => ([Emission.started], [BrowserAction.openUrl target])
    | some msg => ([Emission.error msg], [BrowserAction.openUrl target])

/-- `WebLinkRunner.can_stop`: not overridden, inherited from `GameRunner`. -/
def can_stop : Bool := GameRunner.can_stop

/-- `WebLinkRunner.stop_game`: not overridden, inherited from
`GameRunner`, so it raises `NotImplementedError`. -/
def stop_game : PyResult Bool := GameRunner.stop_game

end WebLinkRunner

/-- The runner variants present in the plugin directory, with the state a
stop call inspects: the managed `DefaultRunner` (its process state and the
outcome of the bounded wait) and the `WebLinkRunner`. -/
inductive RunnerKind where
  | managed (st : RunnerSt) (exitsWithinTimeout : Bool)
  | webLink
deriving DecidableEq

namespace RunnerKind

/-- `can_stop()` per variant. -/
def canStopOf : RunnerKind → Bool
  | .managed _ _ => DefaultRunner.can_stop
  | .webLink => WebLinkRunner.can_stop

/-- `stop_game()` per variant: the managed runner returns its boolean,
the web-link runner inherits the raising base implementation. -/
def stopOf : RunnerKind → PyResult Bool
  | .managed st t => .ok (DefaultRunner.stop_game st t).2
  | .webLink => WebLinkRunner.stop_game

end RunnerKind

/-- What the registry reads off a runner object: its game identity
(`runner.game_data.id`) and its `can_stop()` capability, both fixed for
the runner's lifetime.  Runner objects are identified by an index into an
ambient family. -/
structure RunnerInfo where
  gameId : String
  canStop : Bool

namespace ProcessManager

/-- State of a `ProcessManager` together with the signal wiring it has
performed: `_processes` (an insertion-ordered map, as a Python dict),
`connected` (runners whose `game_stopped`/`error_occurred` signals were
connected to `remove_process` during `add_process`), and `emitted`
(runners that have emitted a terminal signal so far). -/
structure RegState where
  processes : List (String × Nat)
  connected : List Nat
  emitted : List Nat

/-- Freshly constructed `ProcessManager`: empty dict, no connections. -/
def initReg : RegState := ⟨[], [], []⟩

/-- Dict lookup `self._processes.get(game_id)`. -/
def lookup (ps : List (String × Nat)) (g : String) : Option Nat :=
  (ps.find? (fun p => p.1 = g)).map (fun p => p.2)

/-- `ProcessManager.add_process`: ignore runners that cannot stop; ignore
a game identity that is already tracked; otherwise insert the entry and
connect both terminal signals to `remove_process(game_id)`. -/
def add_process (R : Nat → RunnerInfo) (s : RegState) (r : Nat) : RegState :=
  if (R r).canStop = false then s
  else if (lookup s.processes (R r).gameId).isSome then s
  else { s with processes := s.processes ++ [((R r).gameId, r)],
                connected := r :: s.connected }

/-- `ProcessManager.remove_process`: delete the entry if present. -/
def remove_process (s : RegState) (g : String) : RegState :=
  { s with processes := s.processes.filter (fun p => p.1 ≠ g) }

/-- A runner emits `game_stopped` or `error_occurred`: it is recorded as
having emitted, and if `add_process` ever connected its signals, the
connected slot runs `remove_process` on the game identity captured at
registration time. -/
def signal_terminal (R : Nat → RunnerInfo) (s : RegState) (r : Nat) : RegState :=
  let s1 : RegState := { s with emitted := r :: s.emitted }
  if r ∈ s.connected then remove_process s1 (R r).gameId else s1

/-- `ProcessManager.get_runner`. -/
def get_runner (s : RegState) (g : String) : Option Nat :=
  lookup s.processes g

/-- `ProcessManager.is_running`: delegate to the tracked runner's
`is_running()` (the oracle `running`), false when untracked. -/
def is_running (running : Nat → Bool) (s : RegState) (g : String) : Bool :=
  match get_runner s g with
  | some r => running r
  | none => false

/-- Registry states reachable by the code's call pattern: operations in
any order, with a runner registered only before it has emitted a terminal
signal (`add_process` is invoked on the launch path, right after the
runner is constructed and started). -/
inductive Reach (R : Nat → RunnerInfo) : RegState → Prop where
  | init : Reach R initReg
  | add (s : RegState) (r : Nat) : Reach R s → r ∉ s.emitted →
      Reach R (add_process R s r)
  | remove (s : RegState) (g : String) : Reach R s →
      Reach R (remove_process s g)
  | signal (s : RegState) (r : Nat) : Reach R s →
      Reach R (signal_terminal R s r)

/-- Registry invariant: every tracked entry names a stoppable runner that
has not emitted a terminal signal, is keyed by that runner's game
identity, and had its signals connected at registration. -/
def Inv (R : Nat → RunnerInfo) (s : RegState) : Prop :=
  ∀ p ∈ s.processes, (R p.2).canStop = true ∧ p.2 ∉ s.emitted ∧
    p.1 = (R p.2).gameId ∧ p.2 ∈ s.connected

theorem reach_inv (R : Nat → RunnerInfo) (s : RegState) (h : Reach R s) :
    Inv R s := by
  induction h with
  | init => intro p hp; simp [initReg] at hp
  | add s r _ hre ih =>
      intro p hp
      unfold add_process at hp ⊢
      split_ifs at hp ⊢ with h1 h2
      · exact ih p hp
      · exact ih p hp
      · simp only [List.mem_append, List.mem_singleton] at hp
        rcases hp with hold | hnew
        · obtain ⟨a, b, c, d⟩ := ih p hold
          exact ⟨a, b, c, List.mem_cons_of_mem _ d⟩
        · subst hnew
          exact ⟨by simpa using h1, hre, rfl, List.mem_cons_self _ _⟩
  | remove s g _ ih =>
      intro p hp
      unfold remove_process at hp ⊢
      exact ih p (List.mem_of_mem_filter hp)
  | signal s r _ ih =>
      intro p hp
      unfold signal_terminal remove_process at hp ⊢
      split_ifs at hp ⊢ with hconn
      · have hpm : p ∈ s.processes := List.mem_of_mem_filter hp
        have hflt := List.of_mem_filter hp
        obtain ⟨a, b, c, d⟩ := ih p hpm
        refine ⟨a, ?_, c, d⟩
        intro hmem
        rcases List.mem_cons.mp hmem with h1 | h2
        · rw [h1] at c
          simp only [decide_eq_true_eq] at hflt
          exact hflt c
        · exact b h2
      · obtain ⟨a, b, c, d⟩ := ih p hp
        refine ⟨a, ?_, c, d⟩
        intro hmem
        rcases List.mem_cons.mp hmem with h1 | h2
        · exact hconn (h1 ▸ d)
        · exact b h2

end ProcessManager

/-- Recogniser for `game_stopped` emissions. -/
def isStoppedEm : Emission → Bool
  | .stopped _ => true
  | _ => false

/-- Recogniser for terminal emissions (`game_stopped` or `error_occurred`). -/
def isTerminalEm : Emission → Bool
  | .started => false
  | _ => true

/-- Recogniser for the `finished` Qt event. -/
def isFinishedEv : QtEvent → Bool
  | .finished _ => true
  | _ => false

theorem run_game_emissions_shape (env : Env) (g : Game) (st : RunnerSt) :
    ∃ e rest, (DefaultRunner.run_game env g st).emissions = e :: rest ∧
      (e = Emission.started ∨ ∃ m, e = Emission.error m) ∧
      ∀ x ∈ (DefaultRunner.run_game env g st).emissions, isStoppedEm x = false := by
  unfold DefaultRunner.run_game
  cases hc : DefaultRunner.create_command g.executablePath g.launchOptions with
  | exn m =>
      refine ⟨_, _, rfl, Or.inr ⟨m, rfl⟩, ?_⟩
      intro x hx
      simp only [List.mem_singleton] at hx
      subst hx; rfl
  | ok ts =>
      cases ts with
      | nil =>
          refine ⟨_, _, rfl, Or.inr ⟨_, rfl⟩, ?_⟩
          intro x hx
          simp only [List.mem_singleton] at hx
          subst hx; rfl
      | cons t args =>
          dsimp only
          split_ifs <;>
            refine ⟨_, _, rfl,
              by first | exact Or.inl rfl | exact Or.inr ⟨_, rfl⟩, ?_⟩ <;>
            (intro x hx; fin_cases hx <;> rfl)

theorem deliverAll_stopped_count (evs : List QtEvent) :
    ∀ st : RunnerSt,
      ((DefaultRunner.deliverAll st evs).2.filter isStoppedEm).length =
        (evs.filter isFinishedEv).length := by
  induction evs with
  | nil => intro st; rfl
  | cons ev rest ih =>
      intro st
      cases ev with
      | finished c =>
          simp [DefaultRunner.deliverAll, DefaultRunner.deliverEvent,
            DefaultRunner.on_process_finished, isStoppedEm, isFinishedEv, ih]
      | errorOccurred e =>
          simp [DefaultRunner.deliverAll, DefaultRunner.deliverEvent,
            DefaultRunner.on_process_error, isStoppedEm, isFinishedEv, ih]

theorem shlexRun_dquote_plain (s : List Char) (rest : List Char) :
    ∀ tok acc, (∀ c ∈ s, c ≠ dqCh ∧ c ≠ bsCh) →
      shlexRun (s ++ dqCh :: rest) .dquote tok true acc =
        shlexRun rest .word (s.reverse ++ tok) true acc := by
  induction s with
  | nil => intro tok acc _; simp [shlexRun]
  | cons c s' ih =>
      intro tok acc h
      obtain ⟨h1, h2⟩ := h c (List.mem_cons_self _ _)
      have hrest : ∀ x ∈ s', x ≠ dqCh ∧ x ≠ bsCh :=
        fun x hx => h x (List.mem_cons_of_mem _ hx)
      rw [List.cons_append]
      simp only [shlexRun, if_neg h1, if_neg h2]
      rw [ih (c :: tok) acc hrest]
      simp

theorem shlexSplit_quoted (s : String)
    (h : ∀ c ∈ s.data, c ≠ dqCh ∧ c ≠ bsCh) :
    shlexSplit (String.mk [dqCh] ++ s ++ String.mk [dqCh]) = .ok [s] := by
  unfold shlexSplit
  have hdata : (String.mk [dqCh] ++ s ++ String.mk [dqCh]).data
      = dqCh :: (s.data ++ [dqCh]) := by
    cases s; rfl
  rw [hdata]
  have hws : isShlexWs dqCh = false := by decide
  have hbs : dqCh ≠ bsCh := by decide
  have hsq : dqCh ≠ sqCh := by decide
  simp only [shlexRun, hws, if_neg hbs, if_neg hsq, if_pos rfl,
    Bool.false_eq_true, if_false]
  rw [shlexRun_dquote_plain s.data [] [] [] h]
  cases s with
  | mk data => simp [shlexRun]

namespace PlayButton

/-- `PlayButton._create_command`: raises a `ValueError` when neither a
target path nor launch options are given; otherwise the target (if any)
followed by the launch options split on plain whitespace via `str.split()`. -/
def create_command (targetPath launchOptions : String) : PyResult (List String) :=
  if targetPath = "" ∧ launchOptions = "" then
    .exn "No target path or launch options provided."
  else
    .ok ((if targetPath ≠ "" then [targetPath] else []) ++
      (if launchOptions ≠ "" then pySplit launchOptions else []))

/-- `PlayButton._stop_process` on a tracked process: when the process is
running, `terminate()`, a bounded `waitForFinished(KILL_TIMEOUT)`, and a
`kill()` if the wait timed out; nothing otherwise. -/
def stop_process (running : Bool) (exitsWithinTimeout : Bool) : List StopAction :=
  if running then
    if exitsWithinTimeout then
      [StopAction.terminate, StopAction.waitForFinished 5000]
    else
      [StopAction.terminate, StopAction.waitForFinished 5000, StopAction.kill]
  else []

end PlayButton

/-- Recogniser for the bounded/unbounded wait actions of a stop sequence. -/
def isWaitAct : StopAction → Bool
  | .waitForFinished _ => true
  | _ => false

/-- Whether a stop sequence ever waits for the process again after a
`kill()` has been issued. -/
def waitFollowsKill : List StopAction → Bool
  | [] => false
  | StopAction.kill :: rest => rest.any isWaitAct || waitFollowsKill rest
  | _ :: rest => waitFollowsKill rest

/-- C1: the claim states that after the 5000 ms kill timeout elapses the
runner sends a forceful kill and then waits unconditionally until the OS
confirms the exit, returning only after the process is gone.  In the code
(`DefaultRunner.stop_game`, and likewise `PlayButton._stop_process`) the
`kill()` is the last action of the stop sequence: no wait of any kind
follows it, and the call returns `true` immediately. -/
theorem C1_counterexample :
    DefaultRunner.stop_game ⟨some ProcState.running, true⟩ false =
      ([StopAction.terminate, StopAction.waitForFinished 5000,
        StopAction.kill], true) ∧
    waitFollowsKill
      (DefaultRunner.stop_game ⟨some ProcState.running, true⟩ false).1 = false ∧
    waitFollowsKill (PlayButton.stop_process true false) = false := by decide

/-- C1 (amended): for every managed runner with a running process whose
process does not exit within the kill timeout, `stop_game` sends
terminate, waits up to `KILL_TIMEOUT`, sends kill, and returns `true`
immediately with no further wait; the runner still reaches the terminated
state later, when the asynchronous `finished` event arrives and
`_on_process_finished` clears the handle and emits `game_stopped`. -/
theorem C1_amended (st : RunnerSt) (c : Int)
    (h : st.process = some ProcState.running) :
    DefaultRunner.stop_game st false =
      ([StopAction.terminate,
        StopAction.waitForFinished DefaultRunner.KILL_TIMEOUT,
        StopAction.kill], true) ∧
    waitFollowsKill (DefaultRunner.stop_game st false).1 = false ∧
    DefaultRunner.on_process_finished st c =
      ({ st with process := none }, [Emission.stopped c]) := by
  have h1 : DefaultRunner.stop_game st false =
      ([StopAction.terminate,
        StopAction.waitForFinished DefaultRunner.KILL_TIMEOUT,
        StopAction.kill], true) := by
    unfold DefaultRunner.stop_game
    rw [if_pos h, if_neg (by simp)]
  refine ⟨h1, ?_, rfl⟩
  rw [h1]
  decide

/-- C1 witness: the amended statement at a concrete running state. -/
theorem C1_witness :
    DefaultRunner.stop_game ⟨some ProcState.running, false⟩ false =
      ([StopAction.terminate,
        StopAction.waitForFinished DefaultRunner.KILL_TIMEOUT,
        StopAction.kill], true) ∧
    waitFollowsKill
      (DefaultRunner.stop_game ⟨some ProcState.running, false⟩ false).1 = false ∧
    DefaultRunner.on_process_finished ⟨some ProcState.running, false⟩ 0 =
      (⟨none, false⟩, [Emission.stopped 0]) :=
  C1_amended ⟨some ProcState.running, false⟩ 0 rfl

/-- C2: the claim states that at most one terminal signal (`stopped` or
`error`) is ever emitted, and in particular that a crashing process never
produces two terminal signals.  Qt delivers both
`errorOccurred(QProcess.Crashed)` and `finished` for a crashed process,
and `_on_process_error` and `_on_process_finished` each emit
unconditionally, so the runner emits an `error_occurred` followed by a
`game_stopped` — two terminal signals in one lifetime. -/
theorem C2_counterexample :
    DefaultRunner.lifetime envTrue gPlain
      [QtEvent.errorOccurred QProcessError.crashed, QtEvent.finished 9] =
      [Emission.started, Emission.error "Crashed.", Emission.stopped 9] ∧
    ((DefaultRunner.lifetime envTrue gPlain
      [QtEvent.errorOccurred QProcessError.crashed, QtEvent.finished 9]).filter
        isTerminalEm).length = 2 := by decide

/-- C2 (amended): over any lifetime whose event sequence contains at most
one `finished` event (a process finishes at most once), the first emitted
signal is `started` or an `error`, so one of them precedes any `stopped`
signal, and at most one `stopped` is emitted — but a crash or a failed
spawn can add an `error` alongside, so two terminal signals can occur. -/
theorem C2_amended (env : Env) (g : Game) (events : List QtEvent)
    (hfin : (events.filter isFinishedEv).length ≤ 1) :
    ((DefaultRunner.lifetime env g events).filter isStoppedEm).length ≤ 1 ∧
    ∀ pre c suff,
      DefaultRunner.lifetime env g events = pre ++ Emission.stopped c :: suff →
      ∃ x ∈ pre, x = Emission.started ∨ ∃ m, x = Emission.error m := by
  obtain ⟨e, rest, hsh, hek, hall⟩ :=
    run_game_emissions_shape env g DefaultRunner.initSt
  constructor
  · unfold DefaultRunner.lifetime
    rw [List.filter_append, List.length_append]
    have h0 : ((DefaultRunner.run_game env g DefaultRunner.initSt).emissions.filter
        isStoppedEm) = [] := by
      rw [List.filter_eq_nil_iff]
      intro a ha
      simp [hall a ha]
    rw [h0, deliverAll_stopped_count]
    simpa using hfin
  · intro pre c suff heq
    have hl : DefaultRunner.lifetime env g events =
        e :: (rest ++ (DefaultRunner.deliverAll
          (DefaultRunner.run_game env g DefaultRunner.initSt).state events).2) := by
      unfold DefaultRunner.lifetime
      dsimp only
      rw [hsh, List.cons_append]
    rw [hl] at heq
    cases pre with
    | nil =>
        rw [List.nil_append] at heq
        injection heq with h1 _
        rcases hek with h | ⟨m, h⟩ <;> rw [h] at h1 <;> exact absurd h1 (by simp)
    | cons x pre' =>
        rw [List.cons_append] at heq
        injection heq with h1 _
        exact ⟨x, List.mem_cons_self _ _, h1 ▸ hek⟩

/-- C2 witness: the amended statement for a normally exiting process. -/
theorem C2_witness :
    ((DefaultRunner.lifetime envTrue gPlain [QtEvent.finished 0]).filter
        isStoppedEm).length ≤ 1 ∧
    ∀ pre c suff,
      DefaultRunner.lifetime envTrue gPlain [QtEvent.finished 0] =
        pre ++ Emission.stopped c :: suff →
      ∃ x ∈ pre, x = Emission.started ∨ ∃ m, x = Emission.error m :=
  C2_amended envTrue gPlain [QtEvent.finished 0] (by decide)

/-- C3: every game identity tracked by the registry maps to a runner with
`can_stop()` true that has not emitted a terminal signal, and for a
tracked runner the delivery of its terminal signal removes its entry
through the subscription made at registration, so `get_runner` returns
none on the very next query. -/
theorem C3_registry_invariant (R : Nat → RunnerInfo)
    (s : ProcessManager.RegState) (h : ProcessManager.Reach R s) :
    (∀ g r, ProcessManager.get_runner s g = some r →
      (R r).canStop = true ∧ r ∉ s.emitted) ∧
    (∀ r, ProcessManager.get_runner s ((R r).gameId) = some r →
      ProcessManager.get_runner (ProcessManager.signal_terminal R s r)
        ((R r).gameId) = none) := by
  have hinv := ProcessManager.reach_inv R s h
  have hmem : ∀ g r, ProcessManager.get_runner s g = some r →
      ∃ p, p ∈ s.processes ∧ p.1 = g ∧ p.2 = r := by
    intro g r hg
    unfold ProcessManager.get_runner ProcessManager.lookup at hg
    rcases Option.map_eq_some'.mp hg with ⟨p, hfind, hp2⟩
    have hp1 := List.find?_some hfind
    simp only [decide_eq_true_eq] at hp1
    exact ⟨p, List.mem_of_find?_eq_some hfind, hp1, hp2⟩
  constructor
  · intro g r hg
    obtain ⟨p, hpm, _, hp2⟩ := hmem g r hg
    obtain ⟨hcs, hne, _, _⟩ := hinv p hpm
    exact ⟨hp2 ▸ hcs, hp2 ▸ hne⟩
  · intro r hg
    obtain ⟨p, hpm, _, hp2⟩ := hmem _ r hg
    obtain ⟨_, _, _, hconn⟩ := hinv p hpm
    unfold ProcessManager.signal_terminal
    rw [if_pos (hp2 ▸ hconn)]
    unfold ProcessManager.get_runner ProcessManager.remove_process
      ProcessManager.lookup
    rw [Option.map_eq_none']
    rw [List.find?_eq_none]
    intro x hx
    dsimp only at hx
    have hflt := List.of_mem_filter hx
    simp only [decide_eq_true_eq] at hflt ⊢
    exact hflt

/-- C3 witness: a concrete registry holding one tracked runner. -/
theorem C3_witness :
    (∀ g r, ProcessManager.get_runner
        (ProcessManager.add_process (fun _ => ⟨"g1", true⟩)
          ProcessManager.initReg 0) g = some r →
      ((fun _ : Nat => (⟨"g1", true⟩ : RunnerInfo)) r).canStop = true ∧
      r ∉ (ProcessManager.add_process (fun _ => ⟨"g1", true⟩)
        ProcessManager.initReg 0).emitted) ∧
    (∀ r, ProcessManager.get_runner
        (ProcessManager.add_process (fun _ => ⟨"g1", true⟩)
          ProcessManager.initReg 0)
        (((fun _ : Nat => (⟨"g1", true⟩ : RunnerInfo)) r).gameId) = some r →
      ProcessManager.get_runner
        (ProcessManager.signal_terminal (fun _ => ⟨"g1", true⟩)
          (ProcessManager.add_process (fun _ => ⟨"g1", true⟩)
            ProcessManager.initReg 0) r)
        (((fun _ : Nat => (⟨"g1", true⟩ : RunnerInfo)) r).gameId) = none) :=
  C3_registry_invariant (fun _ => ⟨"g1", true⟩) _
    (ProcessManager.Reach.add _ 0 ProcessManager.Reach.init (by simp [ProcessManager.initReg]))

/-- C4: the claim states every runner variant returns false, rather than
raising, when `stop()` is invoked while non-stoppable.  `WebLinkRunner`
does not override `stop_game`, so the inherited base implementation
raises `NotImplementedError` instead of returning false. -/
theorem C4_counterexample :
    RunnerKind.canStopOf RunnerKind.webLink = false ∧
    RunnerKind.stopOf RunnerKind.webLink = PyResult.exn "NotImplementedError" ∧
    ¬ RunnerKind.stopOf RunnerKind.webLink = PyResult.ok false := by decide

/-- C4 (amended): the managed runner's `stop_game` never raises — it
returns false when no process is running and true exactly when a stop is
attempted on a running process — while the web-link runner (and the
`GameRunner` base implementation it inherits) raises `NotImplementedError`
when `stop_game` is invoked directly. -/
theorem C4_amended (st : RunnerSt) (t : Bool) :
    (st.process ≠ some ProcState.running →
      DefaultRunner.stop_game st t = ([], false)) ∧
    (st.process = some ProcState.running →
      (DefaultRunner.stop_game st t).2 = true) ∧
    (∀ b, RunnerKind.stopOf (RunnerKind.managed st t) ≠ PyResult.exn b) ∧
    RunnerKind.stopOf RunnerKind.webLink = PyResult.exn "NotImplementedError" := by
  refine ⟨?_, ?_, ?_, rfl⟩
  · intro h
    unfold DefaultRunner.stop_game
    rw [if_neg h]
  · intro h
    unfold DefaultRunner.stop_game
    rw [if_pos h]
    cases t <;> rfl
  · intro b
    simp [RunnerKind.stopOf]

/-- C4 witness: the amended statement at a non-running managed state. -/
theorem C4_witness :
    ((⟨none, false⟩ : RunnerSt).process ≠ some ProcState.running →
      DefaultRunner.stop_game ⟨none, false⟩ true = ([], false)) ∧
    ((⟨none, false⟩ : RunnerSt).process = some ProcState.running →
      (DefaultRunner.stop_game ⟨none, false⟩ true).2 = true) ∧
    (∀ b, RunnerKind.stopOf (RunnerKind.managed ⟨none, false⟩ true) ≠
      PyResult.exn b) ∧
    RunnerKind.stopOf RunnerKind.webLink = PyResult.exn "NotImplementedError" :=
  C4_amended ⟨none, false⟩ true

/-- The spec's example argument string: `"-file" "C:\a b\c.txt"`. -/
def quotedArgsEx : String :=
  String.mk [dqCh, '-', 'f', 'i', 'l', 'e', dqCh, ' ',
    dqCh, 'C', ':', bsCh, 'a', ' ', 'b', bsCh, 'c', '.', 't', 'x', 't', dqCh]

/-- C5: the claim states that command construction tokenizes arguments
with POSIX shell word-splitting, so a double-quoted substring with spaces
stays one token.  `PlayButton._create_command` — one of the two command
builders — splits on plain whitespace instead, so on the spec's own
example the quoted path is torn into multiple tokens and the two builders
disagree. -/
theorem C5_counterexample :
    PlayButton.create_command "t" quotedArgsEx =
      PyResult.ok ["t",
        String.mk [dqCh, '-', 'f', 'i', 'l', 'e', dqCh],
        String.mk [dqCh, 'C', ':', bsCh, 'a'],
        String.mk ['b', bsCh, 'c', '.', 't', 'x', 't', dqCh]] ∧
    DefaultRunner.create_command "t" quotedArgsEx =
      PyResult.ok ["t", "-file",
        String.mk ['C', ':', bsCh, 'a', ' ', 'b', bsCh, 'c', '.', 't', 'x', 't']] ∧
    PlayButton.create_command "t" quotedArgsEx ≠
      DefaultRunner.create_command "t" quotedArgsEx := by decide

/-- C5 (amended): `DefaultRunner._create_command` does tokenize with POSIX
shell word-splitting — for a non-empty target and arguments `-a -b` the
command is `[target, "-a", "-b"]`, and a double-quoted substring (with no
inner quote or backslash) becomes a single token — while
`PlayButton._create_command` uses a naive whitespace split. -/
theorem C5_amended (target : String) (s : String) (ht : target ≠ "")
    (hs : ∀ c ∈ s.data, c ≠ dqCh ∧ c ≠ bsCh) :
    DefaultRunner.create_command target "-a -b" =
      PyResult.ok [target, "-a", "-b"] ∧
    DefaultRunner.create_command target
      (String.mk [dqCh] ++ s ++ String.mk [dqCh]) = PyResult.ok [target, s] := by
  have hq : String.mk [dqCh] ++ s ++ String.mk [dqCh] ≠ "" := by
    intro hcon
    have hd := congrArg String.data hcon
    cases s with
    | mk d => simp [String.data] at hd
  constructor
  · unfold DefaultRunner.create_command
    rw [if_pos ht, if_pos (by decide : ("-a -b" : String) ≠ "")]
    have hsp : shlexSplit "-a -b" = PyResult.ok ["-a", "-b"] := by decide
    rw [hsp]
  · unfold DefaultRunner.create_command
    rw [if_pos ht, if_pos hq, shlexSplit_quoted s hs]

/-- C5 witness: the amended statement at a quoted path with a space. -/
theorem C5_witness :
    DefaultRunner.create_command "t" "-a -b" = PyResult.ok ["t", "-a", "-b"] ∧
    DefaultRunner.create_command "t"
      (String.mk [dqCh] ++ "a b" ++ String.mk [dqCh]) = PyResult.ok ["t", "a b"] :=
  C5_amended "t" "a b" (by decide) (by decide)

/-- A filesystem on which exactly the bare filename `game.exe` is a
regular file. -/
def envBare : Env := ⟨fun s => s == "game.exe", true⟩

/-- A game whose target is the bare filename `game.exe`, with no explicit
working directory. -/
def gBare : Game := ⟨"g2", "game.exe", "", ""⟩

/-- C6: the claim states that when no explicit working directory is given
and the target is an existing regular file, its parent directory is used.
For a bare filename target `os.path.dirname` is the empty string, which
the code then treats as "no working directory": the launch fails with the
`NoWorkingDirectory`-type error even though the target is a regular file. -/
theorem C6_counterexample :
    envBare.isfile "game.exe" = true ∧
    DefaultRunner.run_game envBare gBare DefaultRunner.initSt =
      ⟨DefaultRunner.initSt,
        [Emission.error "No working directory could be determined."], []⟩ := by
  decide

/-- C6 (amended): an explicit working directory is used as-is; otherwise,
if the target is an existing regular file and its dirname is non-empty,
that dirname is used; otherwise — including a regular-file target whose
dirname is empty — the launch fails with the `NoWorkingDirectory`-type
error before any process object is created. -/
theorem C6_amended (env : Env) (g : Game) (target : String) (args : List String)
    (hc : DefaultRunner.create_command g.executablePath g.launchOptions =
      PyResult.ok (target :: args)) :
    (g.workingDirectory ≠ "" →
      RunAction.setWorkingDir g.workingDirectory ∈
        (DefaultRunner.run_game env g DefaultRunner.initSt).actions) ∧
    (g.workingDirectory = "" → env.isfile target = true →
      posixDirname target ≠ "" →
      RunAction.setWorkingDir (posixDirname target) ∈
        (DefaultRunner.run_game env g DefaultRunner.initSt).actions) ∧
    (g.workingDirectory = "" →
      (env.isfile target = false ∨ posixDirname target = "") →
      DefaultRunner.run_game env g DefaultRunner.initSt =
        ⟨DefaultRunner.initSt,
          [Emission.error "No working directory could be determined."], []⟩) := by
  obtain ⟨fis, start⟩ := env
  refine ⟨?_, ?_, ?_⟩
  · intro h1
    cases start <;>
      simp [DefaultRunner.run_game, hc, DefaultRunner.DETACHED_MODE, h1]
  · intro h1 h2 h3
    have h2f : fis target = true := h2
    cases start <;>
      simp [DefaultRunner.run_game, hc, DefaultRunner.DETACHED_MODE, h1, h2f, h3]
  · intro h1 h2
    rcases h2 with h2 | h2
    · have h2f : fis target = false := h2
      cases start <;>
        simp [DefaultRunner.run_game, hc, DefaultRunner.DETACHED_MODE, h1, h2f]
    · cases start <;>
        simp [DefaultRunner.run_game, hc, DefaultRunner.DETACHED_MODE, h1, h2]

/-- A filesystem on which exactly `/a/b` is a regular file. -/
def envSlash : Env := ⟨fun s => s == "/a/b", true⟩

/-- A game targeting `/a/b` with no explicit working directory. -/
def gSlash : Game := ⟨"g3", "/a/b", "", ""⟩

/-- C6 witness: the amended statement for a target with a proper parent. -/
theorem C6_witness :
    (gSlash.workingDirectory ≠ "" →
      RunAction.setWorkingDir gSlash.workingDirectory ∈
        (DefaultRunner.run_game envSlash gSlash DefaultRunner.initSt).actions) ∧
    (gSlash.workingDirectory = "" → envSlash.isfile "/a/b" = true →
      posixDirname "/a/b" ≠ "" →
      RunAction.setWorkingDir (posixDirname "/a/b") ∈
        (DefaultRunner.run_game envSlash gSlash DefaultRunner.initSt).actions) ∧
    (gSlash.workingDirectory = "" →
      (envSlash.isfile "/a/b" = false ∨ posixDirname "/a/b" = "") →
      DefaultRunner.run_game envSlash gSlash DefaultRunner.initSt =
        ⟨DefaultRunner.initSt,
          [Emission.error "No working directory could be determined."], []⟩) :=
  C6_amended envSlash gSlash "/a/b" [] (by decide)

/-- C7: for a spec whose target and arguments are both empty, `run_game`
emits exactly one `InvalidSpec`-type error signal, performs no OS action,
and leaves the runner state untouched: the failure surfaces before any
process interaction is attempted. -/
theorem C7_invalid_spec (env : Env) (g : Game)
    (he : g.executablePath = "") (ho : g.launchOptions = "") :
    DefaultRunner.run_game env g DefaultRunner.initSt =
      ⟨DefaultRunner.initSt,
        [Emission.error "No valid command provided to run the game."], []⟩ := by
  have hc : DefaultRunner.create_command g.executablePath g.launchOptions =
      PyResult.ok [] := by
    rw [he, ho]; decide
  unfold DefaultRunner.run_game
  rw [hc]

/-- C7 witness: the empty spec. -/
theorem C7_witness :
    DefaultRunner.run_game envTrue ⟨"g0", "", "", ""⟩ DefaultRunner.initSt =
      ⟨DefaultRunner.initSt,
        [Emission.error "No valid command provided to run the game."], []⟩ :=
  C7_invalid_spec envTrue ⟨"g0", "", "", ""⟩ rfl rfl

/-- C8: registering a non-stoppable runner leaves the registry (entries
and signal wiring) completely unchanged; registering a game identity that
is already tracked is a no-op; and `is_running` for an untracked identity
is false. -/
theorem C8_registry_frame (R : Nat → RunnerInfo) (running : Nat → Bool)
    (s : ProcessManager.RegState) (r : Nat) (g : String) :
    ((R r).canStop = false → ProcessManager.add_process R s r = s) ∧
    (ProcessManager.get_runner s ((R r).gameId) ≠ none →
      ProcessManager.add_process R s r = s) ∧
    (ProcessManager.get_runner s g = none →
      ProcessManager.is_running running s g = false) := by
  refine ⟨?_, ?_, ?_⟩
  · intro h
    unfold ProcessManager.add_process
    rw [if_pos h]
  · intro h
    have h' : (ProcessManager.lookup s.processes ((R r).gameId)).isSome = true :=
      Option.ne_none_iff_isSome.mp h
    by_cases h1 : (R r).canStop = false
    · unfold ProcessManager.add_process
      rw [if_pos h1]
    · unfold ProcessManager.add_process
      rw [if_neg h1, if_pos h']
  · intro h
    unfold ProcessManager.is_running
    rw [h]

/-- C8 witness: a non-stoppable runner against the empty registry. -/
theorem C8_witness :
    (((fun _ : Nat => (⟨"gx", false⟩ : RunnerInfo)) 0).canStop = false →
      ProcessManager.add_process (fun _ => ⟨"gx", false⟩)
        ProcessManager.initReg 0 = ProcessManager.initReg) ∧
    (ProcessManager.get_runner ProcessManager.initReg
        (((fun _ : Nat => (⟨"gx", false⟩ : RunnerInfo)) 0).gameId) ≠ none →
      ProcessManager.add_process (fun _ => ⟨"gx", false⟩)
        ProcessManager.initReg 0 = ProcessManager.initReg) ∧
    (ProcessManager.get_runner ProcessManager.initReg "zzz" = none →
      ProcessManager.is_running (fun _ => true) ProcessManager.initReg "zzz" =
        false) :=
  C8_registry_frame (fun _ => ⟨"gx", false⟩) (fun _ => true)
    ProcessManager.initReg 0 "zzz"

/-- C9: the URL runner hands the target to the platform handler only when
the stripped, lower-cased target starts with `http://` or `https://`; for
every other target it emits one immediate error and performs no OS
interaction. -/
theorem C9_scheme_validation (p : String) (r : Option String) :
    ((pyStartswith (pyLower (pyStrip p)) "http://" = false ∧
      pyStartswith (pyLower (pyStrip p)) "https://" = false) →
      WebLinkRunner.run_game p r =
        ([Emission.error ("Invalid URL: " ++ pyStrip p)], [])) ∧
    ((pyStartswith (pyLower (pyStrip p)) "http://" = true ∨
      pyStartswith (pyLower (pyStrip p)) "https://" = true) →
      (WebLinkRunner.run_game p r).2 = [BrowserAction.openUrl (pyStrip p)]) := by
  constructor
  · rintro ⟨h1, h2⟩
    simp [WebLinkRunner.run_game, WebLinkRunner.validate_url, h1, h2]
  · intro h
    have hv : (pyStartswith (pyLower (pyStrip p)) "http://" ||
        pyStartswith (pyLower (pyStrip p)) "https://") = true := by
      rcases h with h | h <;> simp [h]
    cases r <;>
      simp [WebLinkRunner.run_game, WebLinkRunner.validate_url, hv]

/-- C9 witness: an `ftp://` target is rejected with no browser call. -/
theorem C9_witness :
    ((pyStartswith (pyLower (pyStrip "ftp://example.com")) "http://" = false ∧
      pyStartswith (pyLower (pyStrip "ftp://example.com")) "https://" = false) →
      WebLinkRunner.run_game "ftp://example.com" none =
        ([Emission.error ("Invalid URL: " ++ pyStrip "ftp://example.com")], [])) ∧
    ((pyStartswith (pyLower (pyStrip "ftp://example.com")) "http://" = true ∨
      pyStartswith (pyLower (pyStrip "ftp://example.com")) "https://" = true) →
      (WebLinkRunner.run_game "ftp://example.com" none).2 =
        [BrowserAction.openUrl (pyStrip "ftp://example.com")]) :=
  C9_scheme_validation "ftp://example.com" none

/-- C10: when `run_game` fails before a process object is created — no
command can be built from target and arguments, or no working directory
can be determined — one error is emitted, no OS action is performed, and
the runner state is exactly that of a freshly constructed runner: process
handle unset, `is_running` false, `stop_game` false. -/
theorem C10_prespawn_failure_frame (env : Env) (g : Game)
    (h : DefaultRunner.create_command g.executablePath g.launchOptions =
          PyResult.ok [] ∨
        (∃ m, DefaultRunner.create_command g.executablePath g.launchOptions =
          PyResult.exn m) ∨
        (∃ t args,
          DefaultRunner.create_command g.executablePath g.launchOptions =
            PyResult.ok (t :: args) ∧ g.workingDirectory = "" ∧
          (env.isfile t = false ∨ posixDirname t = ""))) :
    (∃ m, DefaultRunner.run_game env g DefaultRunner.initSt =
      ⟨DefaultRunner.initSt, [Emission.error m], []⟩) ∧
    DefaultRunner.is_running DefaultRunner.initSt = false ∧
    ∀ t, DefaultRunner.stop_game DefaultRunner.initSt t = ([], false) := by
  refine ⟨?_, rfl, fun t => rfl⟩
  rcases h with h | ⟨m, h⟩ | ⟨t, args, h, hwd, hf⟩
  · exact ⟨_, by unfold DefaultRunner.run_game; rw [h]⟩
  · exact ⟨_, by unfold DefaultRunner.run_game; rw [h]⟩
  · refine ⟨"No working directory could be determined.", ?_⟩
    obtain ⟨fis, start⟩ := env
    rcases hf with hf | hf
    · have hff : fis t = false := hf
      cases start <;>
        simp [DefaultRunner.run_game, h, DefaultRunner.DETACHED_MODE, hwd, hff]
    · cases start <;>
        simp [DefaultRunner.run_game, h, DefaultRunner.DETACHED_MODE, hwd, hf]

/-- C10 witness: the empty spec fails pre-spawn and leaves a fresh state. -/
theorem C10_witness :
    (∃ m, DefaultRunner.run_game envTrue ⟨"g0", "", "", ""⟩
      DefaultRunner.initSt =
      ⟨DefaultRunner.initSt, [Emission.error m], []⟩) ∧
    DefaultRunner.is_running DefaultRunner.initSt = false ∧
    ∀ t, DefaultRunner.stop_game DefaultRunner.initSt t = ([], false) :=
  C10_prespawn_failure_frame envTrue ⟨"g0", "", "", ""⟩ (Or.inl (by decide))
